import Mathlib

/-!
Verification development for the PDFLux single-page application
(frontend/src/components/DocumentManager.js and the application bundle
holding App, Dashboard and AIChat).

The JavaScript is shallowly embedded: component state becomes explicit
record types, HTTP calls become oracle parameters (the response or the
failure is passed in), `Math.random()` draws become parameters, and
string utilities (`toLowerCase`, `trim`, `includes`, `localeCompare`)
are modelled on `String.data` character lists.  Dates parsed with
`new Date(...)` are modelled by their numeric epoch value, and
JavaScript floating point numbers that are merely carried around
(temperature, processing time) are modelled by `ℚ`.
-/

namespace PDFLux

/-- A document record as served by the backend: id, filename, size in
bytes, optional description, upload date (modelled as the numeric value
of the parsed date) and page count. -/
structure Document where
  id : String
  filename : String
  size : Nat
  description : Option String
  upload_date : Nat
  page_count : Nat
deriving DecidableEq

/-! ### JavaScript string primitives -/

/-- Model of JavaScript `String.prototype.toLowerCase`: lower-case every
character. -/
def jsToLowerStr (s : String) : String :=
  ⟨s.data.map Char.toLower⟩

/-- Model of JavaScript `String.prototype.trim`: drop whitespace from
both ends. -/
def jsTrimStr (s : String) : String :=
  ⟨((s.data.dropWhile Char.isWhitespace).reverse.dropWhile
      Char.isWhitespace).reverse⟩

/-- Model of JavaScript `haystack.includes(needle)`: substring test. -/
def jsIncludes (haystack needle : String) : Bool :=
  decide (needle.data <:+: haystack.data)

/-- Model of JavaScript `a.localeCompare(b)`: `-1`, `0` or `1` according
to the lexicographic comparison of the character sequences. -/
def localeCompare (a b : String) : Int :=
  if List.Lex (· < ·) a.data b.data then -1
  else if List.Lex (· < ·) b.data a.data then 1
  else 0

/-! ### DocumentManager.js: `filteredDocuments` (lines 212-227) -/

/-- The filter predicate of `filteredDocuments` (DocumentManager.js
lines 213-216):
`doc.filename.toLowerCase().includes(searchTerm.toLowerCase()) ||
 doc.description?.toLowerCase().includes(searchTerm.toLowerCase())`.
A missing description makes the optional chain `undefined`, hence falsy. -/
def matchesSearch (searchTerm : String) (doc : Document) : Bool :=
  jsIncludes (jsToLowerStr doc.filename) (jsToLowerStr searchTerm) ||
  (doc.description.map
    (fun desc => jsIncludes (jsToLowerStr desc) (jsToLowerStr searchTerm))).getD false

/-- The sort comparator of `filteredDocuments` (DocumentManager.js lines
217-226): a `switch` on `sortBy` with cases `'filename'` (locale
comparison of filenames), `'size'` (`b.size - a.size`) and
`'upload_date'` falling through to `default`
(`new Date(b.upload_date) - new Date(a.upload_date)`). -/
def sortComparator (sortBy : String) (a b : Document) : Int :=
  if sortBy = "filename" then localeCompare a.filename b.filename
  else if sortBy = "size" then (b.size : Int) - (a.size : Int)
  else (b.upload_date : Int) - (a.upload_date : Int)

/-- `filteredDocuments` (DocumentManager.js lines 212-227): filter by the
search term, then sort with the comparator selected by `sortBy`.
JavaScript `Array.prototype.sort` with a consistent comparator is
modelled by a stable sort with respect to `comparator a b ≤ 0`. -/
def filteredDocuments (documents : List Document) (searchTerm sortBy : String) :
    List Document :=
  List.insertionSort (fun a b => sortComparator sortBy a b ≤ 0)
    (documents.filter (matchesSearch searchTerm))

/-! ### Properties of the comparator relations -/

theorem localeCompare_le_iff (a b : String) :
    localeCompare a b ≤ 0 ↔ ¬ List.Lex (· < ·) b.data a.data := by
  unfold localeCompare
  by_cases h1 : List.Lex (· < ·) a.data b.data
  · simp only [h1, if_true]
    constructor
    · intro _ h2
      exact (IsAsymm.asymm _ _ h1) h2
    · intro _
      norm_num
  · by_cases h2 : List.Lex (· < ·) b.data a.data
    · simp [h1, h2]
    · simp [h1, h2]

theorem localeCompare_le_total (a b : String) :
    localeCompare a b ≤ 0 ∨ localeCompare b a ≤ 0 := by
  rw [localeCompare_le_iff, localeCompare_le_iff]
  by_cases h : List.Lex (· < ·) b.data a.data
  · exact Or.inr fun h2 => (IsAsymm.asymm _ _ h) h2
  · exact Or.inl h

theorem localeCompare_le_trans (a b c : String)
    (h1 : localeCompare a b ≤ 0) (h2 : localeCompare b c ≤ 0) :
    localeCompare a c ≤ 0 := by
  rw [localeCompare_le_iff] at h1 h2 ⊢
  intro hca
  have tri : IsTrichotomous (List Char) (List.Lex (· < ·)) := inferInstance
  rcases tri.1 b.data c.data with hbc | hbc | hbc
  · exact h1 (IsTrans.trans _ _ _ hbc hca)
  · exact h1 (hbc.symm ▸ hca)
  · exact h2 hbc

theorem sortRel_total (sortBy : String) (a b : Document) :
    sortComparator sortBy a b ≤ 0 ∨ sortComparator sortBy b a ≤ 0 := by
  unfold sortComparator
  by_cases h1 : sortBy = "filename"
  · simp only [h1, if_true]
    exact localeCompare_le_total _ _
  · by_cases h2 : sortBy = "size" <;> simp [h1, h2] <;> omega

theorem sortRel_trans (sortBy : String) (a b c : Document)
    (hab : sortComparator sortBy a b ≤ 0) (hbc : sortComparator sortBy b c ≤ 0) :
    sortComparator sortBy a c ≤ 0 := by
  unfold sortComparator at hab hbc ⊢
  by_cases h1 : sortBy = "filename"
  · simp only [h1, if_true] at hab hbc ⊢
    exact localeCompare_le_trans _ _ _ hab hbc
  · by_cases h2 : sortBy = "size" <;> simp [h1, h2] at hab hbc ⊢ <;> omega

/-- The displayed list is sorted with respect to the comparator relation
actually selected by `sortBy`. -/
theorem filteredDocuments_sorted (docs : List Document) (term sortBy : String) :
    List.Sorted (fun a b => sortComparator sortBy a b ≤ 0)
      (filteredDocuments docs term sortBy) := by
  haveI h1 : IsTotal Document (fun a b => sortComparator sortBy a b ≤ 0) :=
    ⟨sortRel_total sortBy⟩
  haveI h2 : IsTrans Document (fun a b => sortComparator sortBy a b ≤ 0) :=
    ⟨sortRel_trans sortBy⟩
  exact List.sorted_insertionSort _ _

/-- Claim C1: for every fetched document list and every value of the sort
selector, the document manager displays the filtered list sorted by the
selected key: `filename` ascending by locale string comparison of
filenames, `size` descending by numeric size, and `upload_date` — the
default used for any other selector value — descending by upload date, so
the newest document comes first. -/
theorem claim1_sort_by_selected_key (docs : List Document) (term : String) :
    List.Sorted (fun a b : Document => localeCompare a.filename b.filename ≤ 0)
      (filteredDocuments docs term "filename")
    ∧ List.Sorted (fun a b : Document => b.size ≤ a.size)
      (filteredDocuments docs term "size")
    ∧ ∀ sortBy : String, sortBy ≠ "filename" → sortBy ≠ "size" →
        List.Sorted (fun a b : Document => b.upload_date ≤ a.upload_date)
          (filteredDocuments docs term sortBy) := by
  refine ⟨?_, ?_, ?_⟩
  · have h := filteredDocuments_sorted docs term "filename"
    refine h.imp ?_
    intro a b hab
    simpa [sortComparator] using hab
  · have h := filteredDocuments_sorted docs term "size"
    refine h.imp ?_
    intro a b hab
    simp [sortComparator] at hab
    omega
  · intro sortBy hf hs
    have h := filteredDocuments_sorted docs term sortBy
    refine h.imp ?_
    intro a b hab
    simp [sortComparator, hf, hs] at hab
    omega

/-- Sample documents used by the concrete witnesses. -/
def docA : Document :=
  { id := "1", filename := "alpha.pdf", size := 100, description := none,
    upload_date := 30, page_count := 2 }

/-- A second sample document, carrying a description. -/
def docB : Document :=
  { id := "2", filename := "beta.pdf", size := 900, description := some "meeting notes",
    upload_date := 10, page_count := 5 }

/-- Witness for claim C1: the default branch at the concrete selector value
`upload_date` on a concrete two-document list. -/
theorem claim1_sort_by_selected_key_witness :
    ("upload_date" : String) ≠ "filename" ∧ ("upload_date" : String) ≠ "size" ∧
    List.Sorted (fun a b : Document => b.upload_date ≤ a.upload_date)
      (filteredDocuments [docA, docB] "" "upload_date") :=
  ⟨by decide, by decide,
    (claim1_sort_by_selected_key [docA, docB] "").2.2 "upload_date"
      (by decide) (by decide)⟩

/-- The search predicate holds exactly when the lower-cased search term is
a substring of the lower-cased filename, or of the lower-cased description
when one is present. -/
theorem matchesSearch_iff (term : String) (d : Document) :
    matchesSearch term d = true ↔
      ((jsToLowerStr term).data <:+: (jsToLowerStr d.filename).data
        ∨ ∃ desc, d.description = some desc ∧
            (jsToLowerStr term).data <:+: (jsToLowerStr desc).data) := by
  cases hd : d.description <;>
    simp [matchesSearch, jsIncludes, hd]

/-- Claim C2: a document appears in the displayed list if and only if the
search term is a case-insensitive substring of its filename, or the
document has a description of which the search term is a case-insensitive
substring; an empty search term keeps every document. -/
theorem claim2_search_filter (docs : List Document) (term sortBy : String)
    (d : Document) :
    (d ∈ filteredDocuments docs term sortBy ↔
      d ∈ docs ∧
        ((jsToLowerStr term).data <:+: (jsToLowerStr d.filename).data
          ∨ ∃ desc, d.description = some desc ∧
              (jsToLowerStr term).data <:+: (jsToLowerStr desc).data))
    ∧ (d ∈ docs → d ∈ filteredDocuments docs "" sortBy) := by
  have hmain : ∀ t : String, d ∈ filteredDocuments docs t sortBy ↔
      d ∈ docs ∧ matchesSearch t d = true := by
    intro t
    unfold filteredDocuments
    rw [(List.perm_insertionSort _ _).mem_iff, List.mem_filter]
  constructor
  · rw [hmain term, matchesSearch_iff]
  · intro hd
    rw [hmain "", matchesSearch_iff]
    refine ⟨hd, Or.inl ?_⟩
    show (jsToLowerStr "").data <:+: _
    have h0 : (jsToLowerStr "").data = [] := rfl
    rw [h0]
    exact List.nil_infix

/-- Witness for claim C2: on a concrete singleton list with an empty
search term, the document is kept. -/
theorem claim2_search_filter_witness :
    docB ∈ [docB] ∧ docB ∈ filteredDocuments [docB] "" "upload_date" :=
  ⟨List.mem_singleton_self docB,
    (claim2_search_filter [docB] "x" "upload_date" docB).2
      (List.mem_singleton_self docB)⟩

/-! ### Error handling of the HTTP catch blocks (claim C3) -/

/-- An effect a `catch` block performs when an HTTP request fails. -/
inductive FailureEffect
  | consoleError
  | toastError
  | appendErrorChatMessage
deriving DecidableEq

/-- The HTTP requests issued by the components: the DocumentManager
(`dm…`), the Dashboard and the AIChat (`chat…`) handlers. -/
inductive RequestKind
  | dmFetchDocuments
  | dmFetchAiProviders
  | dmUpload
  | dmDownload
  | dmDelete
  | dmAiTask
  | dashboardFetch
  | chatFetchDocuments
  | chatFetchAiProviders
  | chatSend
deriving DecidableEq

/-- The effects of each handler's `catch` block, read off the source in
order: DocumentManager.js lines 89-94 (fetchDocuments), 101-103
(fetchAiProviders), 70-75 (upload onDrop), 128-131 (downloadDocument),
143-146 (deleteDocument), 184-189 (performAiTask); bundle lines 213-218
(Dashboard fetchDashboardData), 541-544 (AIChat fetchDocuments), 551-553
(AIChat fetchAiProviders), 629-640 (AIChat sendMessage). -/
def catchEffects : RequestKind → List FailureEffect
  | .dmFetchDocuments => [.consoleError, .toastError]
  | .dmFetchAiProviders => [.consoleError]
  | .dmUpload => [.consoleError, .toastError]
  | .dmDownload => [.consoleError, .toastError]
  | .dmDelete => [.consoleError, .toastError]
  | .dmAiTask => [.consoleError, .toastError]
  | .dashboardFetch => [.consoleError, .toastError]
  | .chatFetchDocuments => [.consoleError, .toastError]
  | .chatFetchAiProviders => [.consoleError]
  | .chatSend => [.consoleError, .appendErrorChatMessage, .toastError]

/-- Whether a failed request of the given kind raises a toast
notification. -/
def surfacesErrorToast (k : RequestKind) : Bool :=
  (catchEffects k).contains FailureEffect.toastError

/-- Counterexample to claim C3 as stated: the AI-provider fetch of the
DocumentManager swallows its failure with only a console log — no toast
is raised, so not every failed request surfaces an error to the user. -/
theorem claim3_counterexample :
    surfacesErrorToast RequestKind.dmFetchAiProviders = false ∧
    catchEffects RequestKind.dmFetchAiProviders = [FailureEffect.consoleError] ∧
    ¬ ∀ k : RequestKind, surfacesErrorToast k = true := by
  refine ⟨rfl, rfl, fun h => ?_⟩
  have hk := h RequestKind.dmFetchAiProviders
  simp [surfacesErrorToast, catchEffects] at hk

/-- Claim C3 (amended): every failed HTTP request surfaces the error via
a toast notification, except the two AI-provider fetches (in the
DocumentManager and in the AIChat), whose failures are only logged to the
console. -/
theorem claim3_amended_toast_on_failure (k : RequestKind)
    (h1 : k ≠ RequestKind.dmFetchAiProviders)
    (h2 : k ≠ RequestKind.chatFetchAiProviders) :
    surfacesErrorToast k = true := by
  cases k <;> first
    | rfl
    | exact absurd rfl h1
    | exact absurd rfl h2

/-- Witness for the amended claim C3 at the concrete upload handler. -/
theorem claim3_amended_toast_on_failure_witness :
    RequestKind.dmUpload ≠ RequestKind.dmFetchAiProviders ∧
    RequestKind.dmUpload ≠ RequestKind.chatFetchAiProviders ∧
    surfacesErrorToast RequestKind.dmUpload = true :=
  ⟨by decide, by decide,
    claim3_amended_toast_on_failure RequestKind.dmUpload (by decide) (by decide)⟩

/-! ### Dashboard statistics (claim C4) -/

/-- The Dashboard `stats` state. -/
structure DashboardStats where
  totalDocuments : Nat
  totalChats : Nat
  aiTasks : Nat
  storageUsed : Nat
deriving DecidableEq

/-- `fetchDashboardData` (bundle lines 200-219) applied to a successful
document-list response.  `randChats` and `randTasks` stand for the two
mock draws `Math.floor(Math.random() * 50)` and
`Math.floor(Math.random() * 100)`; the function returns the `stats`
record and the `recentDocuments` list (`documents.slice(0, 5)`). -/
def fetchDashboardData (documents : List Document) (randChats randTasks : Nat) :
    DashboardStats × List Document :=
  ({ totalDocuments := documents.length,
     totalChats := randChats,
     aiTasks := randTasks,
     storageUsed := documents.foldl (fun total doc => total + doc.size) 0 },
   documents.take 5)

theorem foldl_add_size (docs : List Document) (n : Nat) :
    docs.foldl (fun total doc => total + doc.size) n
      = n + (docs.map (fun d => d.size)).sum := by
  induction docs generalizing n with
  | nil => simp
  | cons d ds ih => simp [List.foldl_cons, ih, Nat.add_assoc]

/-- Claim C4: the dashboard derives its statistics from the fetched
document list — `Total Documents` is the number of documents,
`Storage Used` is the sum of the size fields, `AI Conversations` and
`AI Tasks Completed` are the random placeholder draws (independent of the
response), and `Recent Documents` is the first five documents of the
response (hence at most five). -/
theorem claim4_dashboard_stats (docs : List Document) (randChats randTasks : Nat) :
    (fetchDashboardData docs randChats randTasks).1.totalDocuments = docs.length
    ∧ (fetchDashboardData docs randChats randTasks).1.storageUsed
        = (docs.map (fun d => d.size)).sum
    ∧ (fetchDashboardData docs randChats randTasks).1.totalChats = randChats
    ∧ (fetchDashboardData docs randChats randTasks).1.aiTasks = randTasks
    ∧ (∀ docs' : List Document,
        (fetchDashboardData docs' randChats randTasks).1.totalChats
          = (fetchDashboardData docs randChats randTasks).1.totalChats
        ∧ (fetchDashboardData docs' randChats randTasks).1.aiTasks
          = (fetchDashboardData docs randChats randTasks).1.aiTasks)
    ∧ (fetchDashboardData docs randChats randTasks).2 = docs.take 5
    ∧ (fetchDashboardData docs randChats randTasks).2.length ≤ 5 := by
  refine ⟨rfl, ?_, rfl, rfl, fun _ => ⟨rfl, rfl⟩, rfl, ?_⟩
  · simpa using foldl_add_size docs 0
  · show (docs.take 5).length ≤ 5
    rw [List.length_take]
    omega

/-! ### AIChat component (claims C5 and C10) -/

/-- A chat transcript message as kept in the AIChat `messages` state.
Assistant replies carry `model_used` and `processing_time`; error replies
carry `isError := true`. -/
structure Message where
  role : String
  content : String
  timestamp : String
  model_used : Option String := none
  processing_time : Option ℚ := none
  isError : Bool := false
deriving DecidableEq

/-- The per-message projection sent to the chat endpoint (role, content
and timestamp only — bundle lines 603-607). -/
structure ChatRequestMessage where
  role : String
  content : String
  timestamp : String
deriving DecidableEq

/-- The body posted to `POST /api/ai/chat` (bundle lines 602-615);
`document_id` is present exactly when a document is selected. -/
structure ChatRequest where
  messages : List ChatRequestMessage
  model_provider : String
  model_name : String
  temperature : ℚ
  document_id : Option String
deriving DecidableEq

/-- The oracle outcome of the chat HTTP call: the successful response's
assistant message fields, or the failure detail string. -/
inductive ChatOutcome
  | success (content timestamp modelUsed : String) (processingTime : ℚ)
  | failure (detail : String)
deriving DecidableEq

/-- The AIChat component state (bundle lines 500-510). -/
structure ChatState where
  messages : List Message
  inputMessage : String
  isLoading : Bool
  selectedDocument : Option Document
  currentProvider : String
  currentModel : String
  temperature : ℚ
deriving DecidableEq

/-- The fixed welcome text of `initializeChat` (bundle lines 558-582). -/
def welcomeContent : String :=
  "Welcome to PDFLux AI Chat! 🤖\n\nI\x27m your AI assistant specialized in PDF document analysis and management. Here\x27s what I can help you with:\n\n📄 **Document Analysis**\n• Summarize documents\n• Extract key information\n• Answer questions about content\n• Compare documents\n\n🔧 **PDF Operations**\n• Suggest optimizations\n• Recommend compression strategies\n• Security and permissions advice\n\n💡 **Smart Assistance**\n• Explain complex content\n• Translate text\n• Rewrite for clarity\n\nSelect a document from the sidebar to chat about it, or ask me general questions about PDF management!"

/-- The welcome message built by `initializeChat`; `now` stands for
`new Date().toISOString()`. -/
def welcomeMessage (now : String) : Message :=
  { role := "assistant", content := welcomeContent, timestamp := now }

/-- `initializeChat` (bundle lines 557-585): reset the transcript to the
single welcome message. -/
def initChat (st : ChatState) (now : String) : ChatState :=
  { st with messages := [welcomeMessage now] }

/-- The AIChat state right after mount: the initial `useState` values
followed by the `initializeChat` effect. -/
def initialChatState (now : String) : ChatState :=
  initChat
    { messages := [], inputMessage := "", isLoading := false,
      selectedDocument := none, currentProvider := "openai",
      currentModel := "gpt-4o-mini", temperature := 7/10 } now

/-- Projection of a transcript message to the request shape. -/
def toRequestMessage (m : Message) : ChatRequestMessage :=
  { role := m.role, content := m.content, timestamp := m.timestamp }

/-- `sendMessage` (bundle lines 587-645).  The guard returns unchanged
when the trimmed input is empty or a request is in flight; otherwise the
trimmed user message is appended, the whole transcript is posted together
with provider, model, temperature and (when selected) the document id,
and the response — or an error-flagged assistant message on failure — is
appended.  `nowUser` and `nowError` stand for the two
`new Date().toISOString()` calls; the returned option is the request that
was posted, `none` when the guard fired. -/
def sendMessage (st : ChatState) (nowUser nowError : String)
    (outcome : ChatOutcome) : ChatState × Option ChatRequest :=
  if jsTrimStr st.inputMessage = "" ∨ st.isLoading = true then (st, none)
  else
    let userMessage : Message :=
      { role := "user", content := jsTrimStr st.inputMessage, timestamp := nowUser }
    let newMessages := st.messages ++ [userMessage]
    let chatRequest : ChatRequest :=
      { messages := newMessages.map toRequestMessage,
        model_provider := st.currentProvider,
        model_name := st.currentModel,
        temperature := st.temperature,
        document_id := st.selectedDocument.map Document.id }
    match outcome with
    | .success content timestamp modelUsed processingTime =>
        ({ st with
            messages := newMessages ++
              [{ role := "assistant", content := content, timestamp := timestamp,
                 model_used := some modelUsed,
                 processing_time := some processingTime }],
            inputMessage := "", isLoading := false },
          some chatRequest)
    | .failure detail =>
        ({ st with
            messages := newMessages ++
              [{ role := "assistant",
                 content := "Sorry, I encountered an error: " ++ detail ++
                   ". Please try again or check your settings.",
                 timestamp := nowError, isError := true }],
            inputMessage := "", isLoading := false },
          some chatRequest)

/-- `clearChat` (bundle lines 647-655): do nothing when the transcript
has at most one message; otherwise, upon confirmation, reset to the
welcome message and clear the selected document. -/
def clearChat (st : ChatState) (confirm : Bool) (now : String) : ChatState :=
  if st.messages.length ≤ 1 then st
  else if confirm then { initChat st now with selectedDocument := none }
  else st

/-- Claim C5: for a non-empty, non-whitespace input (and no request in
flight), sending a chat message posts the entire transcript so far —
ending in the one appended user message holding the trimmed input —
together with provider, model, temperature and the selected document's id
(absent when none is selected); on success exactly the one assistant
message of the response is appended, on failure one error-flagged
assistant message, so the transcript grows by exactly two messages. -/
theorem claim5_send_message (st : ChatState) (nowUser nowError : String)
    (oc : ChatOutcome) (hne : jsTrimStr st.inputMessage ≠ "")
    (hload : st.isLoading = false) :
    ((sendMessage st nowUser nowError oc).2 =
        some { messages :=
                 (st.messages ++
                   [({ role := "user", content := jsTrimStr st.inputMessage,
                       timestamp := nowUser } : Message)]).map toRequestMessage,
               model_provider := st.currentProvider,
               model_name := st.currentModel,
               temperature := st.temperature,
               document_id := st.selectedDocument.map Document.id })
    ∧ (∀ c t mu pt, oc = ChatOutcome.success c t mu pt →
        (sendMessage st nowUser nowError oc).1.messages =
          st.messages ++
            [({ role := "user", content := jsTrimStr st.inputMessage,
                timestamp := nowUser } : Message),
             { role := "assistant", content := c, timestamp := t,
               model_used := some mu, processing_time := some pt }])
    ∧ (∀ detail, oc = ChatOutcome.failure detail →
        ∃ err : Message,
          (sendMessage st nowUser nowError oc).1.messages =
            st.messages ++
              [({ role := "user", content := jsTrimStr st.inputMessage,
                  timestamp := nowUser } : Message), err]
          ∧ err.role = "assistant" ∧ err.isError = true)
    ∧ (sendMessage st nowUser nowError oc).1.messages.length
        = st.messages.length + 2 := by
  have hguard : ¬ (jsTrimStr st.inputMessage = "" ∨ st.isLoading = true) := by
    rintro (h | h)
    · exact hne h
    · rw [hload] at h; exact Bool.false_ne_true h
  unfold sendMessage
  rw [if_neg hguard]
  cases oc with
  | success c t mu pt =>
    refine ⟨by simp, ?_, ?_, by simp⟩
    · intro c' t' mu' pt' heq
      cases heq
      simp
    · intro detail heq
      cases heq
  | failure detail =>
    refine ⟨by simp, ?_, ?_, by simp⟩
    · intro c' t' mu' pt' heq
      cases heq
    · intro detail' heq
      cases heq
      refine ⟨{ role := "assistant",
                content := "Sorry, I encountered an error: " ++ detail ++
                  ". Please try again or check your settings.",
                timestamp := nowError, isError := true }, by simp, rfl, rfl⟩

/-- A concrete AIChat state used by the claim C5 witness. -/
def chatStateSample : ChatState :=
  { messages := [welcomeMessage "t0"], inputMessage := "hello",
    isLoading := false, selectedDocument := some docB,
    currentProvider := "openai", currentModel := "gpt-4o-mini",
    temperature := 7/10 }

/-- Witness for claim C5: a concrete successful send grows the concrete
transcript by exactly two messages. -/
theorem claim5_send_message_witness :
    jsTrimStr chatStateSample.inputMessage ≠ "" ∧
    chatStateSample.isLoading = false ∧
    (sendMessage chatStateSample "t1" "t2"
        (ChatOutcome.success "hi" "t3" "gpt-4o-mini" 1)).1.messages.length
      = chatStateSample.messages.length + 2 :=
  ⟨by decide, rfl,
    (claim5_send_message chatStateSample "t1" "t2"
      (ChatOutcome.success "hi" "t3" "gpt-4o-mini" 1) (by decide) rfl).2.2.2⟩

/-- The user-interface events that can rewrite the AIChat state. -/
inductive ChatAction
  | send (nowUser nowError : String) (outcome : ChatOutcome)
  | clear (confirm : Bool) (now : String)
  | setInput (s : String)
  | selectDocument (d : Option Document)
  | setProvider (p : String)
  | setModel (m : String)
  | setTemperature (t : ℚ)

/-- One step of the AIChat component. -/
def chatStep (st : ChatState) : ChatAction → ChatState
  | .send nu ne oc => (sendMessage st nu ne oc).1
  | .clear c n => clearChat st c n
  | .setInput s => { st with inputMessage := s }
  | .selectDocument d => { st with selectedDocument := d }
  | .setProvider p => { st with currentProvider := p }
  | .setModel m => { st with currentModel := m }
  | .setTemperature t => { st with temperature := t }

/-- The AIChat states reachable from mount by user-interface events. -/
inductive ChatReachable : ChatState → Prop
  | init (now : String) : ChatReachable (initialChatState now)
  | step {st : ChatState} (a : ChatAction) :
      ChatReachable st → ChatReachable (chatStep st a)

theorem sendMessage_guard (st : ChatState) (nu ne : String) (oc : ChatOutcome)
    (h : jsTrimStr st.inputMessage = "" ∨ st.isLoading = true) :
    sendMessage st nu ne oc = (st, none) := by
  unfold sendMessage
  rw [if_pos h]

theorem sendMessage_messages_append (st : ChatState) (nu ne : String)
    (oc : ChatOutcome) :
    ∃ tail, (sendMessage st nu ne oc).1.messages = st.messages ++ tail := by
  by_cases h : jsTrimStr st.inputMessage = "" ∨ st.isLoading = true
  · rw [sendMessage_guard st nu ne oc h]
    exact ⟨[], by simp⟩
  · unfold sendMessage
    rw [if_neg h]
    cases oc <;> exact ⟨_, (List.append_assoc _ _ _)⟩

theorem reachable_first_message {st : ChatState} (h : ChatReachable st) :
    ∃ m rest, st.messages = m :: rest ∧ m.role = "assistant" ∧
      m.content = welcomeContent := by
  induction h with
  | init now => exact ⟨welcomeMessage now, [], rfl, rfl, rfl⟩
  | @step st' a hst ih =>
    obtain ⟨m, rest, hm, hrole, hcontent⟩ := ih
    cases a with
    | send nu ne oc =>
      obtain ⟨tail, htail⟩ := sendMessage_messages_append st' nu ne oc
      refine ⟨m, rest ++ tail, ?_, hrole, hcontent⟩
      show (sendMessage st' nu ne oc).1.messages = _
      rw [htail, hm, List.cons_append]
    | clear c n =>
      show ∃ _ _, (clearChat st' c n).messages = _ ∧ _
      unfold clearChat
      by_cases h1 : st'.messages.length ≤ 1
      · rw [if_pos h1]
        exact ⟨m, rest, hm, hrole, hcontent⟩
      · rw [if_neg h1]
        cases c with
        | true =>
          rw [if_pos rfl]
          exact ⟨welcomeMessage n, [], rfl, rfl, rfl⟩
        | false =>
          rw [if_neg Bool.false_ne_true]
          exact ⟨m, rest, hm, hrole, hcontent⟩
    | setInput s => exact ⟨m, rest, hm, hrole, hcontent⟩
    | selectDocument d => exact ⟨m, rest, hm, hrole, hcontent⟩
    | setProvider p => exact ⟨m, rest, hm, hrole, hcontent⟩
    | setModel mo => exact ⟨m, rest, hm, hrole, hcontent⟩
    | setTemperature t => exact ⟨m, rest, hm, hrole, hcontent⟩

/-- Claim C10: the transcript is never empty after initialization and its
first message is always the assistant welcome message — `initializeChat`
resets to exactly one welcome message; `sendMessage` leaves the state
unchanged under its guard and otherwise only appends; `clearChat` does
nothing for transcripts of at most one message and otherwise, upon
confirmation, resets to the single welcome message and clears the
selected document. -/
theorem claim10_transcript_invariants :
    (∀ (st : ChatState) (now : String),
        (initChat st now).messages = [welcomeMessage now])
    ∧ (∀ (st : ChatState) (nu ne : String) (oc : ChatOutcome),
        jsTrimStr st.inputMessage = "" ∨ st.isLoading = true →
          (sendMessage st nu ne oc).1 = st)
    ∧ (∀ (st : ChatState) (nu ne : String) (oc : ChatOutcome),
        ∃ tail, (sendMessage st nu ne oc).1.messages = st.messages ++ tail)
    ∧ (∀ (st : ChatState) (confirm : Bool) (now : String),
        st.messages.length ≤ 1 → clearChat st confirm now = st)
    ∧ (∀ (st : ChatState) (now : String), 1 < st.messages.length →
        (clearChat st true now).messages = [welcomeMessage now]
          ∧ (clearChat st true now).selectedDocument = none
          ∧ clearChat st false now = st)
    ∧ (∀ st : ChatState, ChatReachable st →
        st.messages ≠ [] ∧ ∃ m rest, st.messages = m :: rest ∧
          m.role = "assistant" ∧ m.content = welcomeContent) := by
  refine ⟨fun _ _ => rfl, ?_, sendMessage_messages_append, ?_, ?_, ?_⟩
  · intro st nu ne oc h
    rw [sendMessage_guard st nu ne oc h]
  · intro st confirm now h
    unfold clearChat
    rw [if_pos h]
  · intro st now h
    have h1 : ¬ st.messages.length ≤ 1 := by omega
    refine ⟨?_, ?_, ?_⟩
    · show (clearChat st true now).messages = _
      unfold clearChat
      rw [if_neg h1, if_pos rfl]
      rfl
    · show (clearChat st true now).selectedDocument = none
      unfold clearChat
      rw [if_neg h1, if_pos rfl]
    · unfold clearChat
      rw [if_neg h1, if_neg Bool.false_ne_true]
  · intro st hreach
    obtain ⟨m, rest, hm, hrole, hcontent⟩ := reachable_first_message hreach
    exact ⟨by rw [hm]; exact List.cons_ne_nil m rest, m, rest, hm, hrole, hcontent⟩

/-- Witness for claim C10: the freshly mounted state is reachable and its
transcript is non-empty. -/
theorem claim10_transcript_invariants_witness :
    ChatReachable (initialChatState "t0") ∧
    (initialChatState "t0").messages ≠ [] :=
  ⟨ChatReachable.init "t0",
    (claim10_transcript_invariants.2.2.2.2.2 (initialChatState "t0")
      (ChatReachable.init "t0")).1⟩

/-! ### AI tasks of the DocumentManager (claim C6) -/

/-- The task-type option values of the AI-task dialog (DocumentManager.js
lines 441-446). -/
def aiTaskTypeOptions : List String :=
  ["summarize", "extract_key_points", "rewrite", "analyze", "translate",
   "compress_suggestions"]

/-- The DocumentManager state that `performAiTask` reads. -/
structure DMTaskState where
  selectedDocument : Option Document
  aiTaskType : String
  aiTaskInstructions : String
  aiTaskProvider : String
  aiTaskModel : String
deriving DecidableEq

/-- The body posted to `POST /api/ai/tasks` (DocumentManager.js lines
155-161); `additional_instructions` is `aiTaskInstructions || undefined`,
hence absent exactly when the instruction text is empty. -/
structure AiTaskRequest where
  document_id : String
  task_type : String
  additional_instructions : Option String
  model_provider : String
  model_name : String
deriving DecidableEq

/-- The fields of a successful AI-task response that the component
renders. -/
structure AiTaskResponse where
  result : String
  processing_time : ℚ
deriving DecidableEq

/-- What the newly opened browser tab displays (DocumentManager.js lines
166-179): the capitalised task type heading, the document filename, the
response's result, and the processing time. -/
structure AiTaskTabContent where
  taskType : String
  filename : String
  result : String
  processing_time : ℚ
deriving DecidableEq

/-- `performAiTask` (DocumentManager.js lines 150-190) on the successful
path: `if (!selectedDocument) return;` otherwise post the request and
open a tab with the response's result and processing time.  The result is
the posted request paired with the opened tab content, `none` when no
document is selected. -/
def performAiTask (st : DMTaskState) (resp : AiTaskResponse) :
    Option (AiTaskRequest × AiTaskTabContent) :=
  match st.selectedDocument with
  | none => none
  | some doc =>
      some
        ({ document_id := doc.id,
           task_type := st.aiTaskType,
           additional_instructions :=
             if st.aiTaskInstructions = "" then none
             else some st.aiTaskInstructions,
           model_provider := st.aiTaskProvider,
           model_name := st.aiTaskModel },
         { taskType := st.aiTaskType,
           filename := doc.filename,
           result := resp.result,
           processing_time := resp.processing_time })

/-- Claim C6: the manager offers exactly the six AI task types, and
performing a task with a selected document posts one request carrying the
document's id, the task type, provider, model and the instructions
(omitted when empty), then renders the response's result and processing
time in the opened tab; with no document selected, nothing happens. -/
theorem claim6_ai_tasks :
    (aiTaskTypeOptions.length = 6
      ∧ aiTaskTypeOptions =
          ["summarize", "extract_key_points", "rewrite", "analyze",
           "translate", "compress_suggestions"])
    ∧ (∀ (st : DMTaskState) (resp : AiTaskResponse),
        st.selectedDocument = none → performAiTask st resp = none)
    ∧ (∀ (st : DMTaskState) (resp : AiTaskResponse) (doc : Document),
        st.selectedDocument = some doc →
          ∃ req tab, performAiTask st resp = some (req, tab)
            ∧ req.document_id = doc.id
            ∧ req.task_type = st.aiTaskType
            ∧ req.model_provider = st.aiTaskProvider
            ∧ req.model_name = st.aiTaskModel
            ∧ (st.aiTaskInstructions = "" →
                req.additional_instructions = none)
            ∧ (st.aiTaskInstructions ≠ "" →
                req.additional_instructions = some st.aiTaskInstructions)
            ∧ tab.result = resp.result
            ∧ tab.processing_time = resp.processing_time
            ∧ tab.filename = doc.filename) := by
  refine ⟨⟨rfl, rfl⟩, ?_, ?_⟩
  · intro st resp h
    unfold performAiTask
    rw [h]
  · intro st resp doc h
    unfold performAiTask
    rw [h]
    refine ⟨_, _, rfl, rfl, rfl, rfl, rfl, ?_, ?_, rfl, rfl, rfl⟩
    · intro he
      simp [he]
    · intro he
      simp [he]

/-- A concrete DocumentManager dialog state for the claim C6 witness. -/
def dmTaskStateSample : DMTaskState :=
  { selectedDocument := some docA, aiTaskType := "summarize",
    aiTaskInstructions := "", aiTaskProvider := "openai",
    aiTaskModel := "gpt-4o-mini" }

/-- Witness for claim C6: a concrete summarize task on a selected
document produces a request and a tab rendering. -/
theorem claim6_ai_tasks_witness :
    dmTaskStateSample.selectedDocument = some docA ∧
    ∃ req tab,
      performAiTask dmTaskStateSample { result := "short summary", processing_time := 2 }
          = some (req, tab)
        ∧ req.document_id = docA.id
        ∧ req.task_type = dmTaskStateSample.aiTaskType
        ∧ req.model_provider = dmTaskStateSample.aiTaskProvider
        ∧ req.model_name = dmTaskStateSample.aiTaskModel
        ∧ (dmTaskStateSample.aiTaskInstructions = "" →
            req.additional_instructions = none)
        ∧ (dmTaskStateSample.aiTaskInstructions ≠ "" →
            req.additional_instructions = some dmTaskStateSample.aiTaskInstructions)
        ∧ tab.result = "short summary"
        ∧ tab.processing_time = 2
        ∧ tab.filename = docA.filename :=
  ⟨rfl, claim6_ai_tasks.2.2 dmTaskStateSample
    { result := "short summary", processing_time := 2 } docA rfl⟩

/-! ### Theme persistence (claim C7) -/

/-- JavaScript truthiness of `localStorage.getItem` results: `null` (no
stored value) and the empty string are falsy. -/
def jsFalsy : Option String → Bool
  | none => true
  | some s => s == ""

/-- The mount effect of `App` (bundle lines 40-46): enter dark mode when
the stored `pdflux-theme` value is `'dark'`, or when nothing truthy is
stored and the operating system prefers a dark color scheme. -/
def initDarkMode (saved : Option String) (prefersDark : Bool) : Bool :=
  decide (saved = some "dark") || (jsFalsy saved && prefersDark)

/-- `toggleDarkMode` (bundle lines 48-57): flip the mode and store
`'dark'` or `'light'` under `pdflux-theme` accordingly.  The result is
the new mode and the value written to local storage. -/
def toggleDarkMode (darkMode : Bool) : Bool × String :=
  if !darkMode then (true, "dark") else (false, "light")

/-- Claim C7: toggling stores exactly `'dark'` or `'light'` matching the
new mode; on mount the app is dark exactly when the stored value is
`'dark'` or nothing is stored and the OS prefers dark (for the values
this application stores); hence toggling and remounting restores the
toggled theme. -/
theorem claim7_theme_roundtrip :
    (∀ mode : Bool,
        (toggleDarkMode mode).1 = !mode
        ∧ ((toggleDarkMode mode).2 = "dark" ∨ (toggleDarkMode mode).2 = "light")
        ∧ ((toggleDarkMode mode).2 = "dark" ↔ (toggleDarkMode mode).1 = true))
    ∧ (∀ (saved : Option String) (prefersDark : Bool),
        saved = none ∨ saved = some "dark" ∨ saved = some "light" →
          (initDarkMode saved prefersDark = true ↔
            (saved = some "dark" ∨ (saved = none ∧ prefersDark = true))))
    ∧ (∀ (mode prefersDark : Bool),
        initDarkMode (some (toggleDarkMode mode).2) prefersDark
          = (toggleDarkMode mode).1) := by
  refine ⟨?_, ?_, ?_⟩
  · intro mode
    cases mode <;> simp [toggleDarkMode]
  · rintro saved prefers (rfl | rfl | rfl) <;>
      cases prefers <;> simp [initDarkMode, jsFalsy]
  · intro mode prefers
    cases mode <;> cases prefers <;> simp [initDarkMode, toggleDarkMode, jsFalsy]

/-- Witness for claim C7: the stored value `'dark'` makes the remounted
app dark even when the OS prefers light. -/
theorem claim7_theme_roundtrip_witness :
    ((some "dark" : Option String) = none ∨ (some "dark" : Option String) = some "dark"
      ∨ (some "dark" : Option String) = some "light")
    ∧ (initDarkMode (some "dark") false = true ↔
        ((some "dark" : Option String) = some "dark"
          ∨ ((some "dark" : Option String) = none ∧ false = true))) :=
  ⟨Or.inr (Or.inl rfl),
    claim7_theme_roundtrip.2.1 (some "dark") false (Or.inr (Or.inl rfl))⟩

/-! ### Upload drop zone (claim C8) -/

/-- A dropped browser file: name, MIME type and size in bytes. -/
structure JsFile where
  name : String
  type : String
  size : Nat
deriving DecidableEq

/-- The observable outcome of `onDrop`. -/
inductive DropOutcome
  | noAction
  | rejectedWithToast
  | uploadRequest (f : JsFile)
deriving DecidableEq

/-- `onDrop` (DocumentManager.js lines 50-76): take the first accepted
file (nothing happens when there is none), reject non-PDF MIME types with
an error toast and no request, and otherwise post the file to the upload
endpoint — no size check is performed. -/
def onDrop (acceptedFiles : List JsFile) : DropOutcome :=
  match acceptedFiles with
  | [] => DropOutcome.noAction
  | file :: _ =>
      if file.type ≠ "application/pdf" then DropOutcome.rejectedWithToast
      else DropOutcome.uploadRequest file

/-- Claim C8: only the first accepted file is considered; a non-PDF first
file yields an error toast and no HTTP request; no accepted file yields
nothing; and no client-side size check exists — a PDF of any size
(including above the displayed 50MB limit) is sent to the upload
endpoint. -/
theorem claim8_on_drop :
    (onDrop [] = DropOutcome.noAction)
    ∧ (∀ (f : JsFile) (rest rest' : List JsFile),
        onDrop (f :: rest) = onDrop (f :: rest'))
    ∧ (∀ (f : JsFile) (rest : List JsFile), f.type ≠ "application/pdf" →
        onDrop (f :: rest) = DropOutcome.rejectedWithToast)
    ∧ (∀ (f : JsFile) (rest : List JsFile), f.type = "application/pdf" →
        onDrop (f :: rest) = DropOutcome.uploadRequest f)
    ∧ (∀ (name : String) (size : Nat) (rest : List JsFile),
        onDrop ({ name := name, type := "application/pdf", size := size } :: rest)
          = DropOutcome.uploadRequest
              { name := name, type := "application/pdf", size := size }) := by
  refine ⟨rfl, ?_, ?_, ?_, ?_⟩
  · intro f rest rest'
    rfl
  · intro f rest h
    simp [onDrop, h]
  · intro f rest h
    simp [onDrop, h]
  · intro name size rest
    simp [onDrop]

/-- A PDF file larger than the displayed 50MB limit. -/
def bigPdf : JsFile :=
  { name := "big.pdf", type := "application/pdf", size := 60 * 1024 * 1024 }

/-- Witness for claim C8: an oversized PDF is still sent to the upload
endpoint. -/
theorem claim8_on_drop_witness :
    bigPdf.type = "application/pdf" ∧
    onDrop [bigPdf] = DropOutcome.uploadRequest bigPdf :=
  ⟨rfl, claim8_on_drop.2.2.2.1 bigPdf [] rfl⟩

/-! ### formatBytes (claim C9)

`formatBytes` appears three times in the source (DocumentManager.js lines
193-199, Dashboard bundle lines 221-227, AIChat bundle lines 663-669),
identically:

```
if (bytes === 0) return '0 Bytes';
const k = 1024;
const sizes = ['Bytes', 'KB', 'MB', 'GB'];
const i = Math.floor(Math.log(bytes) / Math.log(k));
return parseFloat((bytes / Math.pow(k, i)).toFixed(2)) + ' ' + sizes[i];
```

The rendered string is modelled as the pair of the displayed number and
the unit.  `Math.floor(Math.log bytes / Math.log 1024)` is the floor of
the base-1024 logarithm, i.e. `Nat.log 1024` on positive inputs; for
negative inputs `Math.log` is `NaN` and for indices past the array
`sizes[i]` is `undefined`, both modelled as `none` (an ill-formed
result).  `toFixed(2)` followed by `parseFloat` rounds the value to two
decimal places, modelled by `round2`. -/

/-- The unit array of `formatBytes`. -/
def sizes : List String := ["Bytes", "KB", "MB", "GB"]

/-- Rounding to two decimal places, the value of
`parseFloat(x.toFixed(2))`. -/
def round2 (q : ℚ) : ℚ := (round (q * 100) : ℚ) / 100

/-- The `formatBytes` utility, modelled as the displayed number-unit
pair; `none` when the JavaScript result would be ill-formed. -/
def formatBytes (bytes : Int) : Option (ℚ × String) :=
  if bytes = 0 then some (0, "Bytes")
  else if bytes < 0 then none
  else
    match sizes[Nat.log 1024 bytes.toNat]? with
    | some unit =>
        some (round2 ((bytes : ℚ) / 1024 ^ Nat.log 1024 bytes.toNat), unit)
    | none => none

/-- The rounded value has at most two decimal places: scaled by `100` it
is an integer. -/
theorem round2_hundredths (q : ℚ) : (round2 q * 100).den = 1 := by
  unfold round2
  rw [div_mul_cancel₀]
  · exact Rat.den_intCast _
  · norm_num

/-- Claim C9: `formatBytes` yields `0 Bytes` at `0`; for `1 ≤ b < 1024^4`
it yields `b` scaled by `1024 ^ i` to at most two decimal places with the
unit `sizes[i]` where `i = ⌊log_1024 b⌋` (characterised by
`1024 ^ i ≤ b < 1024 ^ (i+1)`); for `b ≥ 1024^4` the unit index runs past
the array and for negative `b` the logarithm is undefined, so the result
is well-formed only on `0 ≤ b < 1024^4`. -/
theorem claim9_format_bytes (b : Int) :
    (formatBytes 0 = some (0, "Bytes"))
    ∧ (1 ≤ b → b < 1024 ^ 4 →
        ∃ i unit, (1024 : Int) ^ i ≤ b ∧ b < 1024 ^ (i + 1) ∧ i < 4
          ∧ sizes[i]? = some unit
          ∧ formatBytes b = some (round2 ((b : ℚ) / 1024 ^ i), unit)
          ∧ (round2 ((b : ℚ) / 1024 ^ i) * 100).den = 1)
    ∧ ((1024 : Int) ^ 4 ≤ b → formatBytes b = none)
    ∧ (b < 0 → formatBytes b = none) := by
  refine ⟨rfl, ?_, ?_, ?_⟩
  · intro h1 h2
    set n := b.toNat with hn
    have hne : n ≠ 0 := by omega
    have hcast : (n : Int) = b := by omega
    set i := Nat.log 1024 n with hi
    have hlow : 1024 ^ i ≤ n := Nat.pow_log_le_self 1024 hne
    have hhigh : n < 1024 ^ (i + 1) := Nat.lt_pow_succ_log_self (by norm_num) n
    have hn4 : n < 1024 ^ 4 := by
      have hcast2 : (n : Int) < (1024 : Int) ^ 4 := by rw [hcast]; exact h2
      exact_mod_cast hcast2
    have hi4 : i < 4 := Nat.log_lt_of_lt_pow hne hn4
    have hsz : i < sizes.length := by simp [sizes]; omega
    refine ⟨i, sizes[i], ?_, ?_, hi4, List.getElem?_eq_getElem hsz, ?_,
      round2_hundredths _⟩
    · calc ((1024 : Int) ^ i) = ((1024 ^ i : Nat) : Int) := by push_cast; ring
        _ ≤ (n : Int) := by exact_mod_cast hlow
        _ = b := hcast
    · calc b = (n : Int) := hcast.symm
        _ < ((1024 ^ (i + 1) : Nat) : Int) := by exact_mod_cast hhigh
        _ = (1024 : Int) ^ (i + 1) := by push_cast; ring
    · unfold formatBytes
      rw [if_neg (by omega), if_neg (by omega)]
      rw [← hn, ← hi, List.getElem?_eq_getElem hsz]
  · intro h
    have hb0 : b ≠ 0 := by
      have hpos : (0 : Int) < 1024 ^ 4 := by norm_num
      omega
    have hbneg : ¬ b < 0 := by
      have hpos : (0 : Int) < 1024 ^ 4 := by norm_num
      omega
    have hn4 : 1024 ^ 4 ≤ b.toNat := by
      have hcast2 : ((1024 ^ 4 : Nat) : Int) ≤ b := by push_cast; linarith
      omega
    have hi4 : 4 ≤ Nat.log 1024 b.toNat :=
      Nat.le_log_of_pow_le (by norm_num) hn4
    have hnone : sizes[Nat.log 1024 b.toNat]? = none := by
      apply List.getElem?_eq_none
      simp [sizes]
      omega
    unfold formatBytes
    rw [if_neg hb0, if_neg hbneg, hnone]
  · intro h
    unfold formatBytes
    rw [if_neg (by omega), if_pos h]

/-- Witness for claim C9: `2048` bytes renders as `2 KB`. -/
theorem claim9_format_bytes_witness :
    (1 : Int) ≤ 2048 ∧ (2048 : Int) < 1024 ^ 4 ∧
    formatBytes 2048 = some (2, "KB") := by
  refine ⟨by norm_num, by norm_num, ?_⟩
  obtain ⟨i, unit, hlow, hhigh, hi4, hunit, heq, hden⟩ :=
    (claim9_format_bytes 2048).2.1 (by norm_num) (by norm_num)
  have hi : i = 1 := by
    interval_cases i <;> first | rfl | norm_num at hlow hhigh
  subst hi
  have hu : unit = "KB" := by
    have hk : sizes[1]? = some "KB" := rfl
    rw [hk] at hunit
    exact (Option.some_injective _ hunit.symm)
  subst hu
  rw [heq]
  have hval : round2 (((2048 : Int) : ℚ) / 1024 ^ 1) = 2 := by
    have h2 : (((2048 : Int) : ℚ) / 1024 ^ 1) = 2 := by norm_num
    rw [h2]
    unfold round2
    norm_num
  rw [hval]

end PDFLux
